import Mathlib

/-!
Shallow embedding of the route-sampling and imagery-fetch code of the
repository (`routing.py` and `streetview.py`), together with theorems that
check the specification claims about it.

The Python float code is modelled in exact real arithmetic: `math.sin`,
`math.cos` and `math.atan2` become their real counterparts, Python `round`
becomes round-half-to-even on `ℝ`, the float modulo `%` becomes the
floored-modulo representative, and `numpy.arange` / shapely interpolation are
modelled by their documented exact semantics.  Fallible code (a Python
`raise`, an `IndexError`) is modelled with `Option` / `Except`.
-/

namespace Routing

/-- `math.radians d`: degrees to radians. -/
noncomputable def radians (d : ℝ) : ℝ := d * Real.pi / 180

/-- `math.degrees r`: radians to degrees. -/
noncomputable def degrees (r : ℝ) : ℝ := r * 180 / Real.pi

/-- `math.atan2 y x`: the angle of the point `(x, y)` in `(-pi, pi]`, with
`math.atan2 0 0 = 0`.  Modelled as the argument of the complex number
`x + y*i`. -/
noncomputable def math_atan2 (y x : ℝ) : ℝ := Complex.arg ((x : ℂ) + (y : ℂ) * Complex.I)

/-- Python float modulo `a % b`: for the positive modulus used in the source
it is the representative of `a` in `[0, b)` (Python gives the result the sign
of the divisor). -/
noncomputable def pymod (a b : ℝ) : ℝ := a - b * ⌊a / b⌋

/-- Python `round x` to the nearest integer, with exact halves rounded to the
nearest even integer. -/
noncomputable def py_round (x : ℝ) : ℤ :=
  if Int.fract x = 1 / 2 then (if Even ⌊x⌋ then ⌊x⌋ else ⌊x⌋ + 1) else round x

/-- The normalized compass bearing computed inside `calculate_heading`
(routing.py lines 48-56) before integer rounding: points are `(longitude,
latitude)` pairs in degrees. -/
noncomputable def compass_bearing (point1 point2 : ℝ × ℝ) : ℝ :=
  let lon1 := radians point1.1
  let lat1 := radians point1.2
  let lon2 := radians point2.1
  let lat2 := radians point2.2
  let d_lon := lon2 - lon1
  let x := Real.sin d_lon * Real.cos lat2
  let y := Real.cos lat1 * Real.sin lat2 - Real.sin lat1 * Real.cos lat2 * Real.cos d_lon
  let initial_bearing := math_atan2 x y
  pymod (degrees initial_bearing + 360) 360

/-- `calculate_heading` (routing.py lines 37-59): the compass bearing rounded
to an integer, a rounded value that is not positive being returned as `360`. -/
noncomputable def calculate_heading (point1 point2 : ℝ × ℝ) : ℤ :=
  if 0 < py_round (compass_bearing point1 point2) then
    py_round (compass_bearing point1 point2)
  else 360

lemma pymod_eq_mul_fract (a b : ℝ) (hb : b ≠ 0) : pymod a b = b * Int.fract (a / b) := by
  have h : b * (a / b) = a := by field_simp
  unfold pymod
  simp only [Int.fract, mul_sub, h]

lemma pymod_nonneg (a b : ℝ) (hb : 0 < b) : 0 ≤ pymod a b := by
  rw [pymod_eq_mul_fract a b hb.ne']
  exact mul_nonneg hb.le (Int.fract_nonneg _)

lemma pymod_lt (a b : ℝ) (hb : 0 < b) : pymod a b < b := by
  rw [pymod_eq_mul_fract a b hb.ne']
  calc b * Int.fract (a / b) < b * 1 := mul_lt_mul_of_pos_left (Int.fract_lt_one _) hb
    _ = b := mul_one b

lemma py_round_nonneg (x : ℝ) (hx : 0 ≤ x) : 0 ≤ py_round x := by
  unfold py_round
  split
  · have h := Int.floor_nonneg.mpr hx
    split
    · exact h
    · omega
  · rw [round_eq]
    exact Int.floor_nonneg.mpr (by linarith)

lemma py_round_le (x : ℝ) (b : ℤ) (hx : x < b) : py_round x ≤ b := by
  unfold py_round
  have hfl : ⌊x⌋ < b := Int.floor_lt.mpr hx
  split
  · split
    · omega
    · omega
  · rw [round_eq]
    have h : ⌊x + 1 / 2⌋ < b + 1 := Int.floor_lt.mpr (by push_cast; linarith)
    omega

lemma compass_bearing_nonneg (p1 p2 : ℝ × ℝ) : 0 ≤ compass_bearing p1 p2 := by
  unfold compass_bearing
  exact pymod_nonneg _ _ (by norm_num)

lemma compass_bearing_lt_360 (p1 p2 : ℝ × ℝ) : compass_bearing p1 p2 < 360 := by
  unfold compass_bearing
  exact pymod_lt _ _ (by norm_num)

lemma calculate_heading_bounds (p1 p2 : ℝ × ℝ) :
    1 ≤ calculate_heading p1 p2 ∧ calculate_heading p1 p2 ≤ 360 := by
  unfold calculate_heading
  have h1 : py_round (compass_bearing p1 p2) ≤ 360 :=
    py_round_le _ 360 (by exact_mod_cast compass_bearing_lt_360 p1 p2)
  rcases lt_or_le 0 (py_round (compass_bearing p1 p2)) with h | h
  · rw [if_pos h]
    exact ⟨h, h1⟩
  · rw [if_neg (not_lt.mpr h)]
    norm_num

/-- C3: `calculate_heading` always returns an integer in `[1, 360]` and never
`0`; a compass bearing whose rounded value is `0` is returned as `360`. -/
theorem calculate_heading_range (p1 p2 : ℝ × ℝ) :
    1 ≤ calculate_heading p1 p2 ∧ calculate_heading p1 p2 ≤ 360 ∧
      (py_round (compass_bearing p1 p2) = 0 → calculate_heading p1 p2 = 360) := by
  obtain ⟨h1, h2⟩ := calculate_heading_bounds p1 p2
  refine ⟨h1, h2, fun h0 => ?_⟩
  unfold calculate_heading
  rw [h0]
  norm_num

lemma radians_sub (a b : ℝ) : radians a - radians b = radians (a - b) := by
  unfold radians
  ring

lemma math_atan2_zero_left (y : ℝ) : math_atan2 0 y = Complex.arg ((y : ℝ) : ℂ) := by
  unfold math_atan2
  norm_num

/-- On a meridian (equal longitudes) the `x` term of the bearing formula
vanishes and the compass bearing is decided by the sign of
`sin (radians (lat2 - lat1))`. -/
lemma compass_bearing_meridian (lon lat1 lat2 : ℝ) :
    compass_bearing (lon, lat1) (lon, lat2) =
      if 0 ≤ Real.sin (radians (lat2 - lat1)) then 0 else 180 := by
  simp only [compass_bearing]
  rw [sub_self, Real.sin_zero, Real.cos_zero, zero_mul, mul_one]
  have hy : Real.cos (radians lat1) * Real.sin (radians lat2) -
      Real.sin (radians lat1) * Real.cos (radians lat2) =
      Real.sin (radians (lat2 - lat1)) := by
    rw [← radians_sub, Real.sin_sub]
    ring
  rw [hy, math_atan2_zero_left]
  rcases le_or_lt 0 (Real.sin (radians (lat2 - lat1))) with h | h
  · rw [Complex.arg_ofReal_of_nonneg h, if_pos h]
    unfold degrees pymod
    norm_num
  · rw [Complex.arg_ofReal_of_neg h, if_neg (not_le.mpr h)]
    have hd : degrees Real.pi = 180 := by
      unfold degrees
      rw [mul_comm, mul_div_assoc, div_self Real.pi_ne_zero, mul_one]
    rw [hd]
    unfold pymod
    have h540 : (180 : ℝ) + 360 = 540 := by norm_num
    rw [h540]
    have hfl : ⌊(540 : ℝ) / 360⌋ = 1 := by
      rw [Int.floor_eq_iff]
      constructor <;> norm_num
    rw [hfl]
    norm_num

lemma calculate_heading_of_compass_zero (p1 p2 : ℝ × ℝ)
    (h : compass_bearing p1 p2 = 0) : calculate_heading p1 p2 = 360 := by
  have h0 : py_round (0 : ℝ) = 0 := by
    unfold py_round
    norm_num
  unfold calculate_heading
  rw [h, h0]
  norm_num

/-- C5: on the degenerate equal-point pair the compass bearing evaluates to
`0` before the final mapping, and `calculate_heading` therefore returns
`360`. -/
theorem calculate_heading_degenerate (p : ℝ × ℝ) :
    compass_bearing p p = 0 ∧ calculate_heading p p = 360 := by
  have hc : compass_bearing p p = 0 := by
    have h := compass_bearing_meridian p.1 p.2 p.2
    rw [Prod.mk.eta] at h
    rw [h, sub_self]
    have h0 : radians 0 = 0 := by
      unfold radians
      ring
    rw [h0, Real.sin_zero, if_pos le_rfl]
  exact ⟨hc, calculate_heading_of_compass_zero p p hc⟩

/-- `numpy.arange start stop step` for a positive step: the values
`start, start + step, start + 2*step, ...` that are strictly below `stop`;
numpy produces `⌈(stop - start) / step⌉` of them. -/
noncomputable def np_arange (start stop step : ℝ) : List ℝ :=
  (List.range (⌈(stop - start) / step⌉).toNat).map (fun k : ℕ => start + (k : ℝ) * step)

/-- The planar length of one segment of a shapely `LineString`, on the
longitude/latitude plane. -/
noncomputable def segment_length (p q : ℝ × ℝ) : ℝ :=
  Real.sqrt ((q.1 - p.1) ^ 2 + (q.2 - p.2) ^ 2)

/-- `line.length` of a shapely `LineString` given by its coordinate list: the
sum of the planar segment lengths. -/
noncomputable def line_length : List (ℝ × ℝ) → ℝ
  | p :: q :: rest => segment_length p q + line_length (q :: rest)
  | _ => 0

/-- The segment walk inside shapely `line.interpolate`: consume segments until
the remaining target distance falls inside one, then place the point by linear
interpolation within that segment.  (A target beyond the end clamps to the
last vertex; the sampler below only uses targets in `[0, length)`.) -/
noncomputable def line_interpolate_walk (target : ℝ) : List (ℝ × ℝ) → ℝ × ℝ
  | p :: q :: rest =>
    if target ≤ segment_length p q then
      (p.1 + target / segment_length p q * (q.1 - p.1),
       p.2 + target / segment_length p q * (q.2 - p.2))
    else line_interpolate_walk (target - segment_length p q) (q :: rest)
  | [p] => p
  | [] => (0, 0)

/-- `line.interpolate distance normalized=True`: the point at the fraction
`distance` of the total arc length. -/
noncomputable def interpolate (line : List (ℝ × ℝ)) (distance : ℝ) : ℝ × ℝ :=
  line_interpolate_walk (distance * line_length line) line

/-- The local value `distances_on_line` of `interpolate_points` (routing.py
lines 73-74): `np.arange(0, 1, spacing_distance / line.length)` with
`spacing_distance = line.length / num_points`. -/
noncomputable def distances_on_line (line : List (ℝ × ℝ)) (num_points : ℕ) : List ℝ :=
  np_arange 0 1 ((line_length line / num_points) / line_length line)

/-- `interpolate_points` (routing.py lines 62-75): the normalized-distance
samples mapped through `line.interpolate`. -/
noncomputable def interpolate_points (line : List (ℝ × ℝ)) (num_points : ℕ) : List (ℝ × ℝ) :=
  (distances_on_line line num_points).map (interpolate line)

lemma np_arange_zero_one (N : ℕ) :
    np_arange 0 1 (1 / (N : ℝ)) =
      (List.range N).map (fun k : ℕ => (k : ℝ) * (1 / (N : ℝ))) := by
  unfold np_arange
  have h1 : ((1 : ℝ) - 0) / (1 / (N : ℝ)) = (N : ℝ) := by
    rcases Nat.eq_zero_or_pos N with h | h
    · simp [h]
    · have : (N : ℝ) ≠ 0 := Nat.cast_ne_zero.mpr h.ne'
      field_simp
  rw [h1, Int.ceil_natCast, Int.toNat_natCast]
  exact List.map_congr_left (fun k _ => by ring)

lemma distances_on_line_eq (line : List (ℝ × ℝ)) (N : ℕ)
    (hL : line_length line ≠ 0) :
    distances_on_line line N =
      (List.range N).map (fun k : ℕ => (k : ℝ) * (1 / (N : ℝ))) := by
  unfold distances_on_line
  have hstep : line_length line / (N : ℝ) / line_length line = 1 / (N : ℝ) := by
    rw [div_div, mul_comm, ← div_div, div_self hL]
  rw [hstep, np_arange_zero_one]

lemma segment_length_nonneg (p q : ℝ × ℝ) : 0 ≤ segment_length p q :=
  Real.sqrt_nonneg _

lemma interpolate_zero (p q : ℝ × ℝ) (rest : List (ℝ × ℝ)) :
    interpolate (p :: q :: rest) 0 = p := by
  unfold interpolate line_interpolate_walk
  rw [zero_mul, if_pos (segment_length_nonneg p q)]
  simp

/-- C1: for a polyline of at least two points with positive total length and
a count `N ≥ 1`, `interpolate_points` returns exactly `N` points; the
normalized distances generated for them are strictly increasing and begin at
`0`, so the sampling starts at the path origin. -/
theorem interpolate_points_spec (line : List (ℝ × ℝ)) (N : ℕ)
    (hline : 2 ≤ line.length) (hL : 0 < line_length line) (hN : 1 ≤ N) :
    (interpolate_points line N).length = N ∧
    List.Pairwise (· < ·) (distances_on_line line N) ∧
    (distances_on_line line N).head? = some 0 ∧
    (interpolate_points line N).head? = line.head? := by
  have hd := distances_on_line_eq line N hL.ne'
  have hNpos : (0 : ℝ) < (N : ℝ) := by exact_mod_cast hN
  have hstep : (0 : ℝ) < 1 / (N : ℝ) := by positivity
  refine ⟨?_, ?_, ?_, ?_⟩
  · unfold interpolate_points
    rw [hd]
    simp
  · rw [hd, List.pairwise_map]
    refine (List.pairwise_lt_range N).imp ?_
    intro a b hab
    have hab' : (a : ℝ) < (b : ℝ) := by exact_mod_cast hab
    exact mul_lt_mul_of_pos_right hab' hstep
  · rw [hd]
    obtain ⟨M, rfl⟩ := Nat.exists_eq_add_of_le' hN
    rw [List.range_succ_eq_map]
    simp
  · unfold interpolate_points
    rw [List.head?_map, hd]
    obtain ⟨M, rfl⟩ := Nat.exists_eq_add_of_le' hN
    rw [List.range_succ_eq_map]
    match line, hline with
    | p :: q :: rest, _ =>
      simp [interpolate_zero]

/-- C1 witness: the two-segment-point line from `(0,0)` to `(3,4)` has length
`5 > 0`; sampling it with `N = 2` returns two points, the distances `0` and
`1/2`, and starts at the origin vertex. -/
theorem interpolate_points_spec_witness :
    2 ≤ ([((0 : ℝ), (0 : ℝ)), ((3 : ℝ), (4 : ℝ))] : List (ℝ × ℝ)).length ∧
    0 < line_length [((0 : ℝ), (0 : ℝ)), ((3 : ℝ), (4 : ℝ))] ∧
    (interpolate_points [((0 : ℝ), (0 : ℝ)), ((3 : ℝ), (4 : ℝ))] 2).length = 2 ∧
    List.Pairwise (· < ·) (distances_on_line [((0 : ℝ), (0 : ℝ)), ((3 : ℝ), (4 : ℝ))] 2) ∧
    (distances_on_line [((0 : ℝ), (0 : ℝ)), ((3 : ℝ), (4 : ℝ))] 2).head? = some 0 ∧
    (interpolate_points [((0 : ℝ), (0 : ℝ)), ((3 : ℝ), (4 : ℝ))] 2).head? =
      ([((0 : ℝ), (0 : ℝ)), ((3 : ℝ), (4 : ℝ))] : List (ℝ × ℝ)).head? := by
  have hL : 0 < line_length [((0 : ℝ), (0 : ℝ)), ((3 : ℝ), (4 : ℝ))] := by
    norm_num [line_length, segment_length, Real.sqrt_pos]
  obtain ⟨h1, h2, h3, h4⟩ :=
    interpolate_points_spec [((0 : ℝ), (0 : ℝ)), ((3 : ℝ), (4 : ℝ))] 2 (by simp) hL (by norm_num)
  exact ⟨by simp, hL, h1, h2, h3, h4⟩

/-- One entry of the heading data built by `calculate_headings`: point
coordinates plus an optional heading, absent on the final point. -/
structure SampledPoint where
  coordinates : ℝ × ℝ
  heading : Option ℤ

/-- `calculate_headings` (routing.py lines 78-105): every point except the
last is paired with the bearing toward the next point, and the last point is
appended with no heading.  Python evaluates `spaced_points[-1]` even for an
empty input and raises `IndexError` there; the empty case is therefore
modelled as `none`. -/
noncomputable def calculate_headings (spaced_points : List (ℝ × ℝ)) :
    Option (List SampledPoint) :=
  match spaced_points.getLast? with
  | none => none
  | some lastPoint =>
    some (((List.range (spaced_points.length - 1)).map (fun i =>
      { coordinates := spaced_points.getD i (0, 0),
        heading := some (calculate_heading (spaced_points.getD i (0, 0))
          (spaced_points.getD (i + 1) (0, 0))) })) ++
      [{ coordinates := lastPoint, heading := none }])

/-- C2: for a nonempty list of sampled points, `calculate_headings` returns a
list of the same length, in the same order; every entry but the last carries
the bearing toward the next point, an integer in `[1, 360]`, and the last
entry carries no heading. -/
theorem calculate_headings_spec (pts : List (ℝ × ℝ)) (h : pts ≠ []) :
    ∃ out : List SampledPoint,
      calculate_headings pts = some out ∧
      out.length = pts.length ∧
      (∀ (i : ℕ) (p q : ℝ × ℝ), pts[i]? = some p → pts[i + 1]? = some q →
        out[i]? = some { coordinates := p, heading := some (calculate_heading p q) } ∧
        1 ≤ calculate_heading p q ∧ calculate_heading p q ≤ 360) ∧
      (∀ p : ℝ × ℝ, pts[pts.length - 1]? = some p →
        out[pts.length - 1]? = some { coordinates := p, heading := none }) := by
  obtain ⟨lastPoint, hlast⟩ : ∃ lastPoint, pts.getLast? = some lastPoint := by
    cases hp : pts.getLast? with
    | none => exact absurd (List.getLast?_eq_none_iff.mp hp) h
    | some l => exact ⟨l, rfl⟩
  have hn : 1 ≤ pts.length := List.length_pos.mpr h
  refine ⟨((List.range (pts.length - 1)).map (fun i =>
      { coordinates := pts.getD i (0, 0),
        heading := some (calculate_heading (pts.getD i (0, 0))
          (pts.getD (i + 1) (0, 0))) })) ++
      [{ coordinates := lastPoint, heading := none }], ?_, ?_, ?_, ?_⟩
  · unfold calculate_headings
    rw [hlast]
  · simp only [List.length_append, List.length_map, List.length_range,
      List.length_cons, List.length_nil]
    omega
  · intro i p q hp hq
    have hq1 : i + 1 < pts.length := (List.getElem?_eq_some_iff.mp hq).1
    have hif : i < pts.length - 1 := by omega
    refine ⟨?_, calculate_heading_bounds p q⟩
    rw [List.getElem?_append_left (by simpa using hif), List.getElem?_map,
      List.getElem?_range hif]
    simp [List.getD_eq_getElem?_getD, hp, hq]
  · intro p hp
    have hl : pts[pts.length - 1]? = some lastPoint := by
      rw [← List.getLast?_eq_getElem?]
      exact hlast
    have hpl := Option.some_inj.mp (hp.symm.trans hl)
    rw [List.getElem?_append_right (by simp)]
    simp [hpl]

/-- C2 witness: the two sampled points `(0,0)` and `(0,1)` produce two
annotated points: the first carries the bearing toward the second, the second
carries no heading. -/
theorem calculate_headings_spec_witness :
    ([((0 : ℝ), (0 : ℝ)), ((0 : ℝ), (1 : ℝ))] : List (ℝ × ℝ)) ≠ [] ∧
    ∃ out : List SampledPoint,
      calculate_headings [((0 : ℝ), (0 : ℝ)), ((0 : ℝ), (1 : ℝ))] = some out ∧
      out.length = ([((0 : ℝ), (0 : ℝ)), ((0 : ℝ), (1 : ℝ))] : List (ℝ × ℝ)).length ∧
      (∀ (i : ℕ) (p q : ℝ × ℝ),
        ([((0 : ℝ), (0 : ℝ)), ((0 : ℝ), (1 : ℝ))] : List (ℝ × ℝ))[i]? = some p →
        ([((0 : ℝ), (0 : ℝ)), ((0 : ℝ), (1 : ℝ))] : List (ℝ × ℝ))[i + 1]? = some q →
        out[i]? = some { coordinates := p, heading := some (calculate_heading p q) } ∧
        1 ≤ calculate_heading p q ∧ calculate_heading p q ≤ 360) ∧
      (∀ p : ℝ × ℝ,
        ([((0 : ℝ), (0 : ℝ)), ((0 : ℝ), (1 : ℝ))] : List (ℝ × ℝ))[
          ([((0 : ℝ), (0 : ℝ)), ((0 : ℝ), (1 : ℝ))] : List (ℝ × ℝ)).length - 1]? = some p →
        out[([((0 : ℝ), (0 : ℝ)), ((0 : ℝ), (1 : ℝ))] : List (ℝ × ℝ)).length - 1]? =
          some { coordinates := p, heading := none }) :=
  ⟨by simp, calculate_headings_spec _ (by simp)⟩

/-- C6: the example scenario.  Sampling the straight two-point path from
`(-71.06229, 42.35628)` to `(-71.05818, 42.35155)` with `count = 2` yields
exactly the path origin and the point at normalized fraction `0.5`, which is
the segment midpoint; annotating then gives the first point the bearing
toward that on-segment midpoint, an integer in `[1, 360]`, and gives the
second point no heading. -/
theorem example_scenario :
    interpolate_points
        [((-71.06229 : ℝ), (42.35628 : ℝ)), ((-71.05818 : ℝ), (42.35155 : ℝ))] 2 =
      [((-71.06229 : ℝ), (42.35628 : ℝ)), ((-71.060235 : ℝ), (42.353915 : ℝ))] ∧
    ((-71.060235 : ℝ), (42.353915 : ℝ)) =
      (((-71.06229 : ℝ) + (-71.05818 : ℝ)) / 2, ((42.35628 : ℝ) + (42.35155 : ℝ)) / 2) ∧
    calculate_headings
        [((-71.06229 : ℝ), (42.35628 : ℝ)), ((-71.060235 : ℝ), (42.353915 : ℝ))] =
      some [{ coordinates := ((-71.06229 : ℝ), (42.35628 : ℝ)),
              heading := some (calculate_heading ((-71.06229 : ℝ), (42.35628 : ℝ))
                ((-71.060235 : ℝ), (42.353915 : ℝ))) },
            { coordinates := ((-71.060235 : ℝ), (42.353915 : ℝ)), heading := none }] ∧
    1 ≤ calculate_heading ((-71.06229 : ℝ), (42.35628 : ℝ))
        ((-71.060235 : ℝ), (42.353915 : ℝ)) ∧
    calculate_heading ((-71.06229 : ℝ), (42.35628 : ℝ))
        ((-71.060235 : ℝ), (42.353915 : ℝ)) ≤ 360 := by
  have hseg : (0 : ℝ) < segment_length ((-71.06229 : ℝ), (42.35628 : ℝ))
      ((-71.05818 : ℝ), (42.35155 : ℝ)) := by
    unfold segment_length
    rw [Real.sqrt_pos]
    norm_num
  have hL : line_length
      [((-71.06229 : ℝ), (42.35628 : ℝ)), ((-71.05818 : ℝ), (42.35155 : ℝ))] =
      segment_length ((-71.06229 : ℝ), (42.35628 : ℝ)) ((-71.05818 : ℝ), (42.35155 : ℝ)) := by
    simp [line_length]
  have hd : distances_on_line
      [((-71.06229 : ℝ), (42.35628 : ℝ)), ((-71.05818 : ℝ), (42.35155 : ℝ))] 2 =
      [0, 1 / 2] := by
    rw [distances_on_line_eq _ 2 (by rw [hL]; exact hseg.ne')]
    norm_num [List.range_succ]
  have hmid : interpolate
      [((-71.06229 : ℝ), (42.35628 : ℝ)), ((-71.05818 : ℝ), (42.35155 : ℝ))] (1 / 2) =
      ((-71.060235 : ℝ), (42.353915 : ℝ)) := by
    unfold interpolate
    rw [hL]
    unfold line_interpolate_walk
    rw [if_pos (by linarith [hseg] :
      1 / 2 * segment_length ((-71.06229 : ℝ), (42.35628 : ℝ))
        ((-71.05818 : ℝ), (42.35155 : ℝ)) ≤
      segment_length ((-71.06229 : ℝ), (42.35628 : ℝ)) ((-71.05818 : ℝ), (42.35155 : ℝ)))]
    rw [mul_div_cancel_right₀ ((1 : ℝ) / 2) hseg.ne']
    norm_num [Prod.ext_iff]
  have h1 : interpolate_points
      [((-71.06229 : ℝ), (42.35628 : ℝ)), ((-71.05818 : ℝ), (42.35155 : ℝ))] 2 =
      [((-71.06229 : ℝ), (42.35628 : ℝ)), ((-71.060235 : ℝ), (42.353915 : ℝ))] := by
    unfold interpolate_points
    rw [hd]
    have h0 := interpolate_zero ((-71.06229 : ℝ), (42.35628 : ℝ))
      ((-71.05818 : ℝ), (42.35155 : ℝ)) []
    rw [List.map_cons, List.map_cons, List.map_nil, h0, hmid]
  have h2 : ((-71.060235 : ℝ), (42.353915 : ℝ)) =
      (((-71.06229 : ℝ) + (-71.05818 : ℝ)) / 2, ((42.35628 : ℝ) + (42.35155 : ℝ)) / 2) := by
    norm_num [Prod.ext_iff]
  have h3 : calculate_headings
      [((-71.06229 : ℝ), (42.35628 : ℝ)), ((-71.060235 : ℝ), (42.353915 : ℝ))] =
      some [{ coordinates := ((-71.06229 : ℝ), (42.35628 : ℝ)),
              heading := some (calculate_heading ((-71.06229 : ℝ), (42.35628 : ℝ))
                ((-71.060235 : ℝ), (42.353915 : ℝ))) },
            { coordinates := ((-71.060235 : ℝ), (42.353915 : ℝ)), heading := none }] := by
    have hr1 : List.range 1 = [0] := rfl
    simp [calculate_headings, hr1, List.getD_cons_zero, List.getD_cons_succ]
  exact ⟨h1, h2, h3, (calculate_heading_bounds _ _).1, (calculate_heading_bounds _ _).2⟩

/-- `load_api_key` (routing.py lines 11-17), reading the route-provider key
from the environment: Python `not api_key` also treats an empty string as
missing, and a miss raises `EnvironmentError` (modelled as `Except.error`)
before any client is built or network call made. -/
def load_api_key (vars : String → Option String) : Except String String :=
  match vars "OPEN_ROUTE_SERVICE_API_KEY" with
  | none => Except.error "OpenRouteService API key is not set."
  | some k =>
    if k = "" then Except.error "OpenRouteService API key is not set." else Except.ok k

end Routing

namespace Streetview

/-- The process environment and network as seen by `streetview.py`: the
environment variables read by `os.getenv`, the imagery provider modelled as
functions from a request URL to the HTTP status code and response body, and
the annotated route features that `get_path_imgs` computes from the route
provider (the geometry producing them is modelled in `Routing`; each feature
is `((longitude, latitude), heading)`). -/
structure Env where
  vars : String → Option String
  status : String → ℤ
  content : String → String
  features : List ((ℚ × ℚ) × Option ℤ)

/-- The module-level `API_KEY` of streetview.py (lines 9-10), read from the
environment variable MAPS_API at module load time with no validation. -/
def API_KEY (env : Env) : Option String := env.vars "MAPS_API"

/-- The text a Python f-string renders for `API_KEY`: a missing key (`None`)
is printed as the literal string `None`. -/
def key_str (env : Env) : String :=
  match API_KEY env with
  | none => "None"
  | some s => s

/-- Python truthiness of the optional integer arguments `heading` and
`pitch` in `if heading and pitch:` (streetview.py line 38): `None` and `0`
are both falsy. -/
def is_truthy : Option ℤ → Bool
  | none => false
  | some v => v != 0

/-- The integer text interpolated into the URL for an argument. -/
def opt_str : Option ℤ → String
  | none => "None"
  | some v => toString v

/-- The `street_view_url` construction of `fetch_streetview` (streetview.py
lines 37-57): four f-string branches selected by the truthiness of `heading`
and `pitch`. -/
def street_view_url (size location key : String) (heading pitch : Option ℤ) : String :=
  if is_truthy heading && is_truthy pitch then
    "https://maps.googleapis.com/maps/api/streetview?size=" ++ size ++
      "&location=" ++ location ++ "&heading=" ++ opt_str heading ++
      "&pitch=" ++ opt_str pitch ++ "&key=" ++ key
  else if is_truthy heading then
    "https://maps.googleapis.com/maps/api/streetview?size=" ++ size ++
      "&location=" ++ location ++ "&heading=" ++ opt_str heading ++ "&key=" ++ key
  else if is_truthy pitch then
    "https://maps.googleapis.com/maps/api/streetview?size=" ++ size ++
      "&location=" ++ location ++ "&pitch=" ++ opt_str pitch ++ "&key=" ++ key
  else
    "https://maps.googleapis.com/maps/api/streetview?size=" ++ size ++
      "&location=" ++ location ++ "&key=" ++ key

/-- The observable outcome of one `fetch_streetview` call: the URL requested
over the network (`none` when no request was made), the console output, and
the image (`none` models the empty-array sentinel `np.array([])`). -/
structure FetchResult where
  request : Option String
  log : List String
  image : Option String
deriving DecidableEq

/-- `fetch_streetview` (streetview.py lines 13-71). -/
def fetch_streetview (env : Env) (lat long : ℚ) (img_size : ℤ × ℤ)
    (heading pitch : Option ℤ) : FetchResult :=
  if 640 < img_size.1 ∨ 640 < img_size.2 then
    { request := none, log := ["The maximum image size is 640 x 640"], image := none }
  else
    let location := toString lat ++ ", " ++ toString long
    let size := toString img_size.1 ++ "x" ++ toString img_size.2
    let url := street_view_url size location (key_str env) heading pitch
    if env.status url = 200 then
      { request := some url, log := ["Image fetched successfully"],
        image := some (env.content url) }
    else
      { request := some url,
        log := ["Failed to fetch image. Status code: " ++ toString (env.status url)],
        image := none }

/-- The imagery loop of `get_path_imgs` (streetview.py lines 128-134): one
`fetch_streetview` call per annotated feature (the stored coordinate pair is
`(longitude, latitude)`, passed as `lat=coord[1], long=coord[0]`, with image
size `(640, 640)` and the feature's optional heading), each result appended
to the list. -/
def get_path_imgs_loop (env : Env) (features : List ((ℚ × ℚ) × Option ℤ)) :
    List FetchResult :=
  features.map (fun point =>
    fetch_streetview env point.1.2 point.1.1 (640, 640) point.2 none)

/-- `get_path_imgs` (streetview.py lines 74-136), reduced to its
configuration and network behaviour: the route-provider key is loaded first,
so a missing key errors before any network call; the route fetch, sampling
and file exports in between are the geometry modelled in `Routing` and enter
here as `env.features`, the annotated points the imagery loop iterates
over. -/
def get_path_imgs (env : Env) : Except String (List FetchResult) := do
  let _ROUTE_API_KEY ← Routing.load_api_key env.vars
  pure (get_path_imgs_loop env env.features)

/-- C7: an image size with either dimension above 640 is rejected locally:
no network request is issued and the empty sentinel is returned. -/
theorem fetch_streetview_oversize (env : Env) (lat long : ℚ) (img_size : ℤ × ℤ)
    (heading pitch : Option ℤ) (h : 640 < img_size.1 ∨ 640 < img_size.2) :
    fetch_streetview env lat long img_size heading pitch =
      { request := none, log := ["The maximum image size is 640 x 640"],
        image := none } := by
  unfold fetch_streetview
  rw [if_pos h]

/-- C7 witness: the spec example size `(800, 600)` exceeds a dimension and is
rejected with no request issued. -/
theorem fetch_streetview_oversize_witness :
    ((640 : ℤ) < ((800, 600) : ℤ × ℤ).1 ∨ (640 : ℤ) < ((800, 600) : ℤ × ℤ).2) ∧
    fetch_streetview ⟨fun _ => none, fun _ => 200, fun _ => "", []⟩ 0 0 (800, 600)
        none none =
      { request := none, log := ["The maximum image size is 640 x 640"],
        image := none } :=
  ⟨by decide, fetch_streetview_oversize _ 0 0 (800, 600) none none (by decide)⟩

/-- C8: a provider response with a non-200 status yields a logged failure
message together with the empty sentinel image (a caller-visible failure, not
an exception), and the per-point loop of `get_path_imgs` continues past
failures, producing one accumulated entry per feature. -/
theorem fetch_streetview_failure (env : Env) (lat long : ℚ) (img_size : ℤ × ℤ)
    (heading pitch : Option ℤ)
    (hsz : ¬(640 < img_size.1 ∨ 640 < img_size.2))
    (hst : env.status (street_view_url (toString img_size.1 ++ "x" ++ toString img_size.2)
      (toString lat ++ ", " ++ toString long) (key_str env) heading pitch) ≠ 200) :
    fetch_streetview env lat long img_size heading pitch =
      { request := some (street_view_url (toString img_size.1 ++ "x" ++
          toString img_size.2) (toString lat ++ ", " ++ toString long)
          (key_str env) heading pitch),
        log := ["Failed to fetch image. Status code: " ++
          toString (env.status (street_view_url (toString img_size.1 ++ "x" ++
            toString img_size.2) (toString lat ++ ", " ++ toString long)
            (key_str env) heading pitch))],
        image := none } ∧
    ∀ features : List ((ℚ × ℚ) × Option ℤ),
      (get_path_imgs_loop env features).length = features.length := by
  constructor
  · simp only [fetch_streetview]
    rw [if_neg hsz, if_neg hst]
  · intro features
    unfold get_path_imgs_loop
    simp

/-- C8 witness: a provider answering 404 yields the logged failure and the
sentinel image, and a two-feature loop still accumulates two entries. -/
theorem fetch_streetview_failure_witness :
    (fetch_streetview ⟨fun _ => none, fun _ => 404, fun _ => "", []⟩ 0 0 (640, 640)
        none none).image = none ∧
    (fetch_streetview ⟨fun _ => none, fun _ => 404, fun _ => "", []⟩ 0 0 (640, 640)
        none none).log =
      ["Failed to fetch image. Status code: " ++ toString (404 : ℤ)] ∧
    (get_path_imgs_loop ⟨fun _ => none, fun _ => 404, fun _ => "", []⟩
        [((1, 2), some 90), ((3, 4), none)]).length = 2 := by
  have h := fetch_streetview_failure ⟨fun _ => none, fun _ => 404, fun _ => "", []⟩
    0 0 (640, 640) none none (by decide) (by decide)
  refine ⟨?_, ?_, ?_⟩
  · rw [h.1]
  · rw [h.1]
  · simpa using h.2 [((1, 2), some 90), ((3, 4), none)]

/-- C9 counterexample: with `MAPS_API` missing from the environment the
imagery fetch does not fail fast: the key is read as `None` and the network
request is still issued (the claim requires an error before any network call
for the imagery-provider key as well). -/
theorem fetch_streetview_missing_key :
    API_KEY ⟨fun _ => none, fun _ => 200, fun _ => "img", []⟩ = none ∧
    key_str ⟨fun _ => none, fun _ => 200, fun _ => "img", []⟩ = "None" ∧
    (fetch_streetview ⟨fun _ => none, fun _ => 200, fun _ => "img", []⟩ 0 0 (640, 640)
        none none).request.isSome = true := by
  exact ⟨rfl, rfl, rfl⟩

/-- C9 (amended): a missing route-provider key fails fast: `load_api_key`
errors (the `EnvironmentError` raise) and `get_path_imgs` propagates that
error before any imagery request; the imagery-provider key, by contrast, is
read with no check, and with `MAPS_API` missing `fetch_streetview` still
issues its network request, the URL carrying the literal text `None` as the
key. -/
theorem api_key_failfast (env : Env) (lat long : ℚ) (heading pitch : Option ℤ)
    (hroute : env.vars "OPEN_ROUTE_SERVICE_API_KEY" = none)
    (hmaps : env.vars "MAPS_API" = none) :
    Routing.load_api_key env.vars =
      Except.error "OpenRouteService API key is not set." ∧
    get_path_imgs env = Except.error "OpenRouteService API key is not set." ∧
    key_str env = "None" ∧
    (fetch_streetview env lat long (640, 640) heading pitch).request =
      some (street_view_url (toString (640 : ℤ) ++ "x" ++ toString (640 : ℤ))
        (toString lat ++ ", " ++ toString long) "None" heading pitch) := by
  have hload : Routing.load_api_key env.vars =
      Except.error "OpenRouteService API key is not set." := by
    unfold Routing.load_api_key
    rw [hroute]
  have hkey : key_str env = "None" := by
    unfold key_str API_KEY
    rw [hmaps]
  refine ⟨hload, ?_, hkey, ?_⟩
  · unfold get_path_imgs
    rw [hload]
    rfl
  · simp only [fetch_streetview]
    rw [if_neg (by decide), hkey]
    split
    · rfl
    · rfl

/-- C9 witness: in an empty environment the route key load and
`get_path_imgs` fail fast with the source's error message, while an imagery
fetch still issues its request with key text `None`. -/
theorem api_key_failfast_witness :
    Routing.load_api_key (fun _ => none) =
      Except.error "OpenRouteService API key is not set." ∧
    get_path_imgs ⟨fun _ => none, fun _ => 200, fun _ => "img", [((1, 2), some 10)]⟩ =
      Except.error "OpenRouteService API key is not set." ∧
    key_str ⟨fun _ => none, fun _ => 200, fun _ => "img", [((1, 2), some 10)]⟩ = "None" ∧
    (fetch_streetview ⟨fun _ => none, fun _ => 200, fun _ => "img", [((1, 2), some 10)]⟩
        3 4 (640, 640) none none).request =
      some (street_view_url (toString (640 : ℤ) ++ "x" ++ toString (640 : ℤ))
        (toString (3 : ℚ) ++ ", " ++ toString (4 : ℚ)) "None" none none) := by
  have h := api_key_failfast ⟨fun _ => none, fun _ => 200, fun _ => "img",
    [((1, 2), some 10)]⟩ 3 4 none none rfl rfl
  exact ⟨h.1, h.2.1, h.2.2.1, h.2.2.2⟩

/-- C10: a zero pitch is falsy in Python, so `pitch = 0` selects the same
URL branch as an absent pitch and the whole fetch result is identical; the
same holds for a zero heading. -/
theorem street_view_url_zero_dropped (size location key : String) :
    (∀ heading : Option ℤ,
      street_view_url size location key heading (some 0) =
        street_view_url size location key heading none) ∧
    (∀ pitch : Option ℤ,
      street_view_url size location key (some 0) pitch =
        street_view_url size location key none pitch) ∧
    (∀ (env : Env) (lat long : ℚ) (img_size : ℤ × ℤ) (heading : Option ℤ),
      fetch_streetview env lat long img_size heading (some 0) =
        fetch_streetview env lat long img_size heading none) ∧
    (∀ (env : Env) (lat long : ℚ) (img_size : ℤ × ℤ) (pitch : Option ℤ),
      fetch_streetview env lat long img_size (some 0) pitch =
        fetch_streetview env lat long img_size none pitch) := by
  have hu1 : ∀ (s l k : String) (heading : Option ℤ),
      street_view_url s l k heading (some 0) = street_view_url s l k heading none := by
    intro s l k heading
    unfold street_view_url
    simp [is_truthy]
  have hu2 : ∀ (s l k : String) (pitch : Option ℤ),
      street_view_url s l k (some 0) pitch = street_view_url s l k none pitch := by
    intro s l k pitch
    unfold street_view_url
    simp [is_truthy]
  refine ⟨hu1 size location key, hu2 size location key, ?_, ?_⟩
  · intro env lat long img_size heading
    simp only [fetch_streetview]
    rw [hu1]
  · intro env lat long img_size pitch
    simp only [fetch_streetview]
    rw [hu2]

end Streetview
